import Mathlib

/-! Verification of `examples/network/network_api_demo_prediction.py`, a NuPIC Network API
demo that runs a sensor, spatial pooler, temporal pooler and SDR classifier over hotgym
records and writes one `(record index, consumption, prediction)` row per record.

Modelling conventions: Python floats are modelled as exact rationals (`ℚ`); every decimal
literal of the demo is exactly representable, and each comparison the development depends on
has the same outcome in binary64 and in `ℚ`. The process-global `random.randint` draws are
modelled as an explicit per-record draw input. Python exceptions are modelled with `Except`.
The engine, encoders and regions are external collaborators; what each `network.run(1)` tick
exposes to the loop body is an input of the model. -/

namespace HotgymDemo

/-- Python runtime errors that the loop body of `runNetwork` can raise. -/
inductive PyError where
  /-- `ValueError` from `max(probabilities)` on an empty sequence (line 223). -/
  | maxOfEmpty
  /-- `IndexError` from `probabilities[i]` past the end of the list (line 226). -/
  | indexOutOfRange
  /-- `ValueError` (empty range for `randrange`) from `random.randint(0, -1)` when the
  candidate list is empty (line 228); the spec names this failure `EmptyCandidateSetError`. -/
  | emptyRandRange

/-- `epsilon = .00001`, the "epsilon for floating point comparison" of line 224. -/
def epsilon : ℚ := 0.00001

/-- The filter the code performs at index `i` (line 226): `(probabilities[i] - pMax) < epsilon`. -/
def codeTest (p pMax : ℚ) : Bool := decide (p - pMax < epsilon)

/-- Modelled from the spec: the tie-break test `pMax - probabilities[i] < ε` that §4.3 of the
spec states; the source file does not contain this comparison, so it is kept as a separate,
clearly named definition to be compared against `codeTest`. -/
def specTest (p pMax : ℚ) : Bool := decide (pMax - p < epsilon)

/-- `pMax = max(probabilities)` (line 223); the Python builtin `max` raises `ValueError` on an
empty sequence. -/
def pyMax : List ℚ → Except PyError ℚ
  | [] => .error .maxOfEmpty
  | x :: xs => .ok (xs.foldl max x)

/-- The comprehension `[actualValues[i] for i in xrange(len(actualValues)) if test(...)]` of
lines 225-226, with `test` abstracting the comparison applied to `probabilities[i]` and
`pMax`: the index walks `0 .. len(actualValues) - 1`, so the two lists are consumed in
lockstep, and reading `probabilities[i]` past the end of `probabilities` is an `IndexError`.
Entries of `probabilities` beyond `len(actualValues)` are never read. -/
def compWith (test : ℚ → ℚ → Bool) : List ℚ → List ℚ → ℚ → Except PyError (List ℚ)
  | [], _, _ => .ok []
  | _ :: _, [], _ => .error .indexOutOfRange
  | a :: as, p :: ps, pMax =>
    match compWith test as ps pMax with
    | .error e => .error e
    | .ok tail => .ok (if test p pMax then a :: tail else tail)

/-- The candidate list exactly as the code computes it (lines 223-226): `pMax` from the
probabilities, then the comprehension filtered by `(probabilities[i] - pMax) < epsilon`. -/
def selectCandidates (actualValues probabilities : List ℚ) : Except PyError (List ℚ) :=
  match pyMax probabilities with
  | .error e => .error e
  | .ok pMax => compWith codeTest actualValues probabilities pMax

/-- Modelled from the spec: the candidate set `S` of §4.3, the candidates whose probability
satisfies `pMax - probabilities[i] < ε`; for comparison with `selectCandidates`. -/
def specCandidates (actualValues probabilities : List ℚ) : Except PyError (List ℚ) :=
  match pyMax probabilities with
  | .error e => .error e
  | .ok pMax => compWith specTest actualValues probabilities pMax

/-- `candidates[random.randint(0, len(candidates) - 1)]` (line 228). On an empty candidate
list, `randint(0, -1)` raises `ValueError`; otherwise `randint` returns a seed-determined
value in `0 .. len(candidates) - 1`, modelled by reducing the supplied draw modulo
`len(candidates)`, so quantifying over all draws covers every value `randint` can return. -/
def pickPrediction (candidates : List ℚ) (draw : Nat) : Except PyError ℚ :=
  match candidates with
  | [] => .error .emptyRandRange
  | c :: cs => .ok ((c :: cs).getD (draw % (c :: cs).length) c)

/-- What one `network.run(1)` tick exposes to the loop body (lines 219-221): the sensor
region output `sourceOut[0]` and the classifier region outputs `actualValues` and
`probabilities`. -/
structure TickData where
  consumption : ℚ
  actualValues : List ℚ
  probabilities : List ℚ

/-- One `writer.writerow((i, consumption, prediction))` row (line 230). `indexField` is the
first element of the written tuple: the value of the variable `i` at line 230, which is not
the record index — see `tickStep`. -/
structure OutputRow where
  indexField : Nat
  consumption : ℚ
  prediction : ℚ

/-- The loop body after `network.run(1)` returned (lines 219-230) for record index `i`, given
the data the regions exposed and the random draw of this record. The file is Python 2, where
a list comprehension leaks its loop variable: the comprehension at lines 225-226 reuses the
name `i`, so when it iterates at least once it leaves `i = len(actualValues) - 1`, and that
is what line 230 writes as the first tuple element; only when `actualValues` is empty (a
case that raises at line 228 before anything is written) does `i` keep the record index. -/
def tickStep (i : Nat) (d : TickData) (draw : Nat) : Except PyError OutputRow :=
  match selectCandidates d.actualValues d.probabilities with
  | .error e => .error e
  | .ok candidates =>
    match pickPrediction candidates draw with
    | .error e => .error e
    | .ok prediction =>
      .ok ⟨if d.actualValues.isEmpty then i else d.actualValues.length - 1,
        d.consumption, prediction⟩

/-- One whole loop iteration: `network.run(1)` — whose externally produced region outputs, or
failure, are given by `ticks i` — followed by the loop body with the random draw of record
`i`. An exception from the engine propagates unchanged. -/
def tickOutcome (ticks : Nat → Except PyError TickData) (draws : Nat → Nat) (i : Nat) :
    Except PyError OutputRow :=
  match ticks i with
  | .error e => .error e
  | .ok d => tickStep i d (draws i)

/-- Observable result of a run: the rows written, the number of `network.run(1)` invocations
performed (each such invocation runs one step of every region), and the uncaught exception,
if any, that aborted the loop. -/
structure RunResult where
  rows : List OutputRow
  runCalls : Nat
  err : Option PyError

/-- The `for i in xrange(...)` loop of `runNetwork` (lines 213-230), from record index `i`
with `n` records remaining. `runNetwork` contains no `try`, so an uncaught exception stops
the loop at once: nothing is written for the failing record and no further record is
attempted. A failing iteration still counts the `network.run(1)` invocation that started it. -/
def runLoop (outcome : Nat → Except PyError OutputRow) : Nat → Nat → RunResult
  | _, 0 => ⟨[], 0, none⟩
  | i, n + 1 =>
    match outcome i with
    | .error e => ⟨[], 1, some e⟩
    | .ok row =>
      let r := runLoop outcome (i + 1) n
      ⟨row :: r.rows, r.runCalls + 1, r.err⟩

/-- `runNetwork(network, writer)` (lines 200-230), generalised over the record count: the
file fixes the count to `_NUM_RECORDS = 2000`. The per-tick region outputs and the sequence
of `random` draws are the inputs of the model. -/
def runNetwork (ticks : Nat → Except PyError TickData) (draws : Nat → Nat)
    (numRecords : Nat) : RunResult :=
  runLoop (tickOutcome ticks draws) 0 numRecords

/-- `_VERBOSITY = 0` (line 44). -/
def _VERBOSITY : Nat := 0

/-- `_NUM_RECORDS = 2000` (line 50). -/
def _NUM_RECORDS : Nat := 2000

/-- Config record for SPRegion (lines 53-67). -/
structure SPParams where
  spVerbosity : Nat
  spatialImp : String
  globalInhibition : Nat
  columnCount : Nat
  inputWidth : Nat
  numActiveColumnsPerInhArea : Nat
  seed : Nat
  potentialPct : ℚ
  synPermConnected : ℚ
  synPermActiveInc : ℚ
  synPermInactiveDec : ℚ
  maxBoost : ℚ

/-- `SP_PARAMS` as written at module load (lines 53-67); `inputWidth` starts at `0`. -/
def SP_PARAMS : SPParams where
  spVerbosity := _VERBOSITY
  spatialImp := "cpp"
  globalInhibition := 1
  columnCount := 2048
  inputWidth := 0
  numActiveColumnsPerInhArea := 40
  seed := 1956
  potentialPct := 0.8
  synPermConnected := 0.1
  synPermActiveInc := 0.0001
  synPermInactiveDec := 0.0005
  maxBoost := 1.0

/-- Config record for TPRegion (lines 70-89). -/
structure TPParams where
  verbosity : Nat
  columnCount : Nat
  cellsPerColumn : Nat
  inputWidth : Nat
  seed : Nat
  temporalImp : String
  newSynapseCount : Nat
  maxSynapsesPerSegment : Nat
  maxSegmentsPerCell : Nat
  initialPerm : ℚ
  permanenceInc : ℚ
  permanenceDec : ℚ
  globalDecay : ℚ
  maxAge : Nat
  minThreshold : Nat
  activationThreshold : Nat
  outputType : String
  pamLength : Nat

/-- `TP_PARAMS` as written at module load (lines 70-89). -/
def TP_PARAMS : TPParams where
  verbosity := _VERBOSITY
  columnCount := 2048
  cellsPerColumn := 32
  inputWidth := 2048
  seed := 1960
  temporalImp := "cpp"
  newSynapseCount := 20
  maxSynapsesPerSegment := 32
  maxSegmentsPerCell := 128
  initialPerm := 0.21
  permanenceInc := 0.1
  permanenceDec := 0.1
  globalDecay := 0.0
  maxAge := 0
  minThreshold := 9
  activationThreshold := 12
  outputType := "normal"
  pamLength := 3

/-- Params record for the SDR classifier (lines 93-98). -/
structure CLParams where
  alpha : ℚ
  steps : String
  implementation : String
  verbosity : Nat

/-- `CL_PARAMS` as written at module load (lines 93-98). -/
def CL_PARAMS : CLParams where
  alpha := 0.005
  steps := "1"
  implementation := "py"
  verbosity := _VERBOSITY

/-- The three module-level parameter records together, as mutable module state. -/
structure ModuleParams where
  sp : SPParams
  tp : TPParams
  cl : CLParams

/-- The module-level records before `createNetwork` runs. -/
def initialModuleParams : ModuleParams := ⟨SP_PARAMS, TP_PARAMS, CL_PARAMS⟩

/-- The effect of `createNetwork` (lines 116-197) on the module-level parameter records: its
only mutation of module state is `SP_PARAMS["inputWidth"] = sensor.encoder.getWidth()`
(line 140), performed before the SPRegion is created. `encoderWidth` stands for
`sensor.encoder.getWidth()`; region and link construction happen inside the external engine
object and touch no module state. -/
def createNetwork (encoderWidth : Nat) (s : ModuleParams) : ModuleParams :=
  { s with sp := { s.sp with inputWidth := encoderWidth } }

/-- A per-record tick input stream, used to witness determinism: every record exposes the
same classifier outputs. -/
def demoTicks : Nat → Except PyError TickData :=
  fun _ => .ok ⟨5, [10, 20], [0.5, 0.9]⟩

/-- A tick input stream whose second record fails inside `network.run(1)`, used to witness
abort-on-failure. -/
def failTicks : Nat → Except PyError TickData :=
  fun i => if i = 1 then .error .maxOfEmpty else .ok ⟨5, [10, 20], [0.9, 0.9]⟩

/-- The rows the successful prefix of `failTicks` produces: the first written field is the
leaked comprehension variable `len(actualValues) - 1 = 1`, not the record index. -/
def failRow : Nat → OutputRow := fun _ => ⟨1, 5, 10⟩

lemma codeTest_eq_true {p m : ℚ} (h : p - m < epsilon) : codeTest p m = true :=
  decide_eq_true h

lemma codeTest_eq_false {p m : ℚ} (h : ¬(p - m < epsilon)) : codeTest p m = false :=
  decide_eq_false h

lemma specTest_eq_true {p m : ℚ} (h : m - p < epsilon) : specTest p m = true :=
  decide_eq_true h

lemma specTest_eq_false {p m : ℚ} (h : ¬(m - p < epsilon)) : specTest p m = false :=
  decide_eq_false h

lemma pyMax_half_nine : pyMax [0.5, 0.9] = .ok 0.9 := by
  simp [pyMax, max_eq_right (show (0.5 : ℚ) ≤ 0.9 by norm_num)]

lemma pyMax_with_dup : pyMax [0.5, 0.9, 0.9] = .ok 0.9 := by
  simp [pyMax, max_eq_right (show (0.5 : ℚ) ≤ 0.9 by norm_num), max_self]

lemma pyMax_boundary : pyMax [0.2, 0.79999, 0.8] = .ok 0.8 := by
  simp [pyMax, max_eq_right (show (0.2 : ℚ) ≤ 0.79999 by norm_num),
    max_eq_right (show (0.79999 : ℚ) ≤ 0.8 by norm_num)]

lemma pyMax_inner : pyMax [0.2, 0.799995, 0.8] = .ok 0.8 := by
  simp [pyMax, max_eq_right (show (0.2 : ℚ) ≤ 0.799995 by norm_num),
    max_eq_right (show (0.799995 : ℚ) ≤ 0.8 by norm_num)]

lemma selectCandidates_boundary :
    selectCandidates [10, 20, 30] [0.2, 0.79999, 0.8] = .ok [10, 20, 30] := by
  simp [selectCandidates, pyMax_boundary, compWith,
    codeTest_eq_true (show (0.2 : ℚ) - 0.8 < epsilon by norm_num [epsilon]),
    codeTest_eq_true (show (0.79999 : ℚ) - 0.8 < epsilon by norm_num [epsilon]),
    codeTest_eq_true (show (0.8 : ℚ) - 0.8 < epsilon by norm_num [epsilon])]

lemma specCandidates_boundary :
    specCandidates [10, 20, 30] [0.2, 0.79999, 0.8] = .ok [30] := by
  simp [specCandidates, pyMax_boundary, compWith,
    specTest_eq_false (show ¬((0.8 : ℚ) - 0.2 < epsilon) by norm_num [epsilon]),
    specTest_eq_false (show ¬((0.8 : ℚ) - 0.79999 < epsilon) by norm_num [epsilon]),
    specTest_eq_true (show (0.8 : ℚ) - 0.8 < epsilon by norm_num [epsilon])]

lemma specCandidates_inner :
    specCandidates [10, 20, 30] [0.2, 0.799995, 0.8] = .ok [20, 30] := by
  simp [specCandidates, pyMax_inner, compWith,
    specTest_eq_false (show ¬((0.8 : ℚ) - 0.2 < epsilon) by norm_num [epsilon]),
    specTest_eq_true (show (0.8 : ℚ) - 0.799995 < epsilon by norm_num [epsilon]),
    specTest_eq_true (show (0.8 : ℚ) - 0.8 < epsilon by norm_num [epsilon])]

lemma foldl_max_bounds (l : List ℚ) (a : ℚ) :
    a ≤ l.foldl max a ∧ ∀ x ∈ l, x ≤ l.foldl max a := by
  induction l generalizing a with
  | nil => exact ⟨le_refl a, fun x hx => absurd hx (List.not_mem_nil x)⟩
  | cons y ys ih =>
    constructor
    · exact le_trans (le_max_left a y) (ih (max a y)).1
    · intro x hx
      rcases List.mem_cons.mp hx with h | h
      · rw [h]; exact le_trans (le_max_right a y) (ih (max a y)).1
      · exact (ih (max a y)).2 x h

lemma compWith_all_ok (test : ℚ → ℚ → Bool) :
    ∀ (a p : List ℚ) (m : ℚ), a.length ≤ p.length →
      (∀ x ∈ p, test x m = true) → compWith test a p m = .ok a := by
  intro a
  induction a with
  | nil => intro p m _ _; rfl
  | cons x xs ih =>
    intro p m hlen hall
    cases p with
    | nil => simp at hlen
    | cons q qs =>
      have htail : compWith test xs qs m = .ok xs :=
        ih qs m (by simpa using hlen) (fun y hy => hall y (List.mem_cons_of_mem q hy))
      have hq : test q m = true := hall q (List.mem_cons_self q qs)
      simp [compWith, htail, hq]

lemma getD_mem (l : List ℚ) (i : Nat) (d : ℚ) (h : i < l.length) : l.getD i d ∈ l := by
  induction l generalizing i with
  | nil => simp at h
  | cons x xs ih =>
    cases i with
    | zero => simp
    | succ j =>
      rw [List.getD_cons_succ]
      exact List.mem_cons_of_mem x (ih j (by simpa using h))

lemma runLoop_first_error (outcome : Nat → Except PyError OutputRow)
    (rows : Nat → OutputRow) (e : PyError) :
    ∀ (k i n : Nat), k < n → outcome (i + k) = .error e →
      (∀ j, j < k → outcome (i + j) = .ok (rows (i + j))) →
      runLoop outcome i n = ⟨(List.range k).map (fun j => rows (i + j)), k + 1, some e⟩ := by
  intro k
  induction k with
  | zero =>
    intro i n hk hfail _
    cases n with
    | zero => exact absurd hk (lt_irrefl 0)
    | succ m =>
      have h0 : outcome i = .error e := by simpa using hfail
      simp [runLoop, h0]
  | succ k ih =>
    intro i n hk hfail hok
    cases n with
    | zero => exact absurd hk (Nat.not_lt_zero _)
    | succ m =>
      have h0 : outcome i = .ok (rows i) := by simpa using hok 0 (Nat.succ_pos k)
      have hrec := ih (i + 1) m (by omega)
        (by rw [show i + 1 + k = i + (k + 1) by omega]; exact hfail)
        (fun j hj => by
          rw [show i + 1 + j = i + (j + 1) by omega]
          exact hok (j + 1) (by omega))
      have hfun : (fun j => rows (i + 1 + j)) = fun j => rows (i + (j + 1)) :=
        funext (fun j => congrArg rows (by omega))
      simp [runLoop, h0, hrec, hfun, List.range_succ_eq_map, List.map_map, Function.comp]

/-- C1: the spec claims the selection step retains exactly the candidates whose probability
is within `1e-5` of the maximum. The code filters with `(probabilities[i] - pMax) < epsilon`
(line 226), a test every index satisfies, so at `actualValues = [10, 20]`,
`probabilities = [0.5, 0.9]` it computes `[10, 20]` while the near-maximum set the claim
describes is `[20]`: the always-true comparison defeats the near-maximum selection that the
`pMax` computation and the epsilon comment of the code itself document. -/
theorem tieFilter_keeps_all_code_bug :
    selectCandidates [10, 20] [0.5, 0.9] = .ok [10, 20] ∧
    specCandidates [10, 20] [0.5, 0.9] = .ok [20] ∧
    selectCandidates [10, 20] [0.5, 0.9] ≠ specCandidates [10, 20] [0.5, 0.9] := by
  have h1 : selectCandidates [10, 20] [0.5, 0.9] = .ok [10, 20] := by
    simp [selectCandidates, pyMax_half_nine, compWith,
      codeTest_eq_true (show (0.5 : ℚ) - 0.9 < epsilon by norm_num [epsilon]),
      codeTest_eq_true (show (0.9 : ℚ) - 0.9 < epsilon by norm_num [epsilon])]
  have h2 : specCandidates [10, 20] [0.5, 0.9] = .ok [20] := by
    simp [specCandidates, pyMax_half_nine, compWith,
      specTest_eq_false (show ¬((0.9 : ℚ) - 0.5 < epsilon) by norm_num [epsilon]),
      specTest_eq_true (show (0.9 : ℚ) - 0.9 < epsilon by norm_num [epsilon])]
  refine ⟨h1, h2, ?_⟩
  rw [h1, h2]
  intro hc
  injection hc with hlist
  injection hlist with h10
  norm_num at h10

/-- C2 counterexample: with `probabilities[i] = 0.25` and `pMax = 0.75` (so
`probabilities[i] ≤ pMax`), the code test `probabilities[i] - pMax < ε` holds while the
spec test `pMax - probabilities[i] < ε` fails, and the two filters compute different
candidate sets, refuting the claimed equivalence. -/
theorem codeTest_specTest_not_equivalent :
    (0.25 : ℚ) ≤ 0.75 ∧
    codeTest 0.25 0.75 = true ∧
    specTest 0.25 0.75 = false ∧
    compWith codeTest [7, 8] [0.25, 0.75] 0.75 ≠ compWith specTest [7, 8] [0.25, 0.75] 0.75 := by
  have hc : compWith codeTest [7, 8] [0.25, 0.75] 0.75 = .ok [7, 8] := by
    simp [compWith,
      codeTest_eq_true (show (0.25 : ℚ) - 0.75 < epsilon by norm_num [epsilon]),
      codeTest_eq_true (show (0.75 : ℚ) - 0.75 < epsilon by norm_num [epsilon])]
  have hs : compWith specTest [7, 8] [0.25, 0.75] 0.75 = .ok [8] := by
    simp [compWith,
      specTest_eq_false (show ¬((0.75 : ℚ) - 0.25 < epsilon) by norm_num [epsilon]),
      specTest_eq_true (show (0.75 : ℚ) - 0.75 < epsilon by norm_num [epsilon])]
  refine ⟨by norm_num,
    codeTest_eq_true (by norm_num [epsilon]),
    specTest_eq_false (by norm_num [epsilon]), ?_⟩
  rw [hc, hs]
  intro h
  injection h with hlist
  injection hlist with h78
  norm_num at h78

/-- C2 amended: given `probabilities[i] ≤ pMax`, the spec test implies the code test, but
the two are not equivalent: the code test holds at every such index, whatever the gap to the
maximum. -/
theorem specTest_implies_codeTest (p m : ℚ) (h : p ≤ m) :
    codeTest p m = true ∧ (specTest p m = true → codeTest p m = true) := by
  have h1 : codeTest p m = true := codeTest_eq_true (by
    have h0 : (0 : ℚ) < epsilon := by norm_num [epsilon]
    linarith)
  exact ⟨h1, fun _ => h1⟩

/-- C2 amended, witness at `probabilities[i] = 0.25`, `pMax = 0.75`. -/
theorem specTest_implies_codeTest_witness :
    codeTest 0.25 0.75 = true ∧ (specTest 0.25 0.75 = true → codeTest 0.25 0.75 = true) :=
  specTest_implies_codeTest 0.25 0.75 (by norm_num)

/-- C3: for `candidates = [10, 20, 30]` and `probabilities = [0.5, 0.9, 0.9]` the claim
requires the tie set `[20, 30]` and forbids the prediction `10`; but the code computes the
candidate list `[10, 20, 30]`, and the draw `0` (a value `randint(0, 2)` can return) selects
`10`. The near-maximum set the claim and spec describe is indeed `[20, 30]`, so the claim
matches the evident intent and the code is the slip. -/
theorem prediction_can_be_first_candidate_bug :
    selectCandidates [10, 20, 30] [0.5, 0.9, 0.9] = .ok [10, 20, 30] ∧
    pickPrediction [10, 20, 30] 0 = .ok 10 ∧
    specCandidates [10, 20, 30] [0.5, 0.9, 0.9] = .ok [20, 30] := by
  refine ⟨?_, rfl, ?_⟩
  · simp [selectCandidates, pyMax_with_dup, compWith,
      codeTest_eq_true (show (0.5 : ℚ) - 0.9 < epsilon by norm_num [epsilon]),
      codeTest_eq_true (show (0.9 : ℚ) - 0.9 < epsilon by norm_num [epsilon])]
  · simp [specCandidates, pyMax_with_dup, compWith,
      specTest_eq_false (show ¬((0.9 : ℚ) - 0.5 < epsilon) by norm_num [epsilon]),
      specTest_eq_true (show (0.9 : ℚ) - 0.9 < epsilon by norm_num [epsilon])]

/-- C4 counterexample: at `candidates = [10, 20, 30]`, `probabilities = [0.2, 0.79999, 0.8]`
the computed candidate set is not `[20, 30]` — neither as the code computes it (it keeps all
three) nor under the near-maximum rule of the spec (the gap `0.8 - 0.79999` equals `1e-5`
exactly, so the strict `<` excludes `20` as well, leaving `[30]`). -/
theorem boundary_tie_set_counterexample :
    selectCandidates [10, 20, 30] [0.2, 0.79999, 0.8] ≠ .ok [20, 30] ∧
    specCandidates [10, 20, 30] [0.2, 0.79999, 0.8] ≠ .ok [20, 30] := by
  constructor
  · rw [selectCandidates_boundary]
    intro h
    injection h with hlist
    injection hlist with h10
    norm_num at h10
  · rw [specCandidates_boundary]
    intro h
    injection h with hlist
    injection hlist with h30
    norm_num at h30

/-- C4 amended: at the boundary input the code keeps every candidate, `[10, 20, 30]`; under
the near-maximum rule with strict `<` the tie set is `[30]`, since the gap of exactly `1e-5`
is not within epsilon, while lowering the middle probability to `0.799995` (gap `5e-6`)
yields the near-maximum set `[20, 30]`. -/
theorem boundary_tie_set_amended :
    selectCandidates [10, 20, 30] [0.2, 0.79999, 0.8] = .ok [10, 20, 30] ∧
    specCandidates [10, 20, 30] [0.2, 0.79999, 0.8] = .ok [30] ∧
    specCandidates [10, 20, 30] [0.2, 0.799995, 0.8] = .ok [20, 30] :=
  ⟨selectCandidates_boundary, specCandidates_boundary, specCandidates_inner⟩

/-- C5: the run is a function of the per-tick region outputs and of the draw sequence — two
runs that read equal tick data and equal random draws produce equal results, rows included. -/
theorem runNetwork_deterministic (t1 t2 : Nat → Except PyError TickData)
    (d1 d2 : Nat → Nat) (n : Nat)
    (ht : ∀ i, t1 i = t2 i) (hd : ∀ i, d1 i = d2 i) :
    runNetwork t1 d1 n = runNetwork t2 d2 n := by
  rw [funext ht, funext hd]

/-- C5 witness: two pointwise-equal draw sequences over the same tick stream. -/
theorem runNetwork_deterministic_witness :
    runNetwork demoTicks (fun i => i + 0) 2 = runNetwork demoTicks (fun i => i) 2 :=
  runNetwork_deterministic demoTicks demoTicks (fun i => i + 0) (fun i => i) 2
    (fun _ => rfl) (fun _ => rfl)

/-- C6: when the computed candidate list is empty, the loop body raises (the empty-range
`ValueError` from `randint(0, -1)`, the failure the spec names `EmptyCandidateSetError`) and
returns no row — it neither yields a value nor falls back to a default. -/
theorem selection_empty_candidates_fails (i : Nat) (d : TickData) (draw : Nat)
    (h : selectCandidates d.actualValues d.probabilities = .ok []) :
    tickStep i d draw = .error .emptyRandRange ∧
    ∀ row, tickStep i d draw ≠ .ok row := by
  have h1 : tickStep i d draw = .error .emptyRandRange := by
    simp [tickStep, h, pickPrediction]
  refine ⟨h1, fun row hrow => ?_⟩
  rw [h1] at hrow
  exact Except.noConfusion hrow

/-- C6 witness: empty `actualValues` make the computed candidate list empty. -/
theorem selection_empty_candidates_fails_witness :
    tickStep 0 ⟨0, [], [1]⟩ 0 = .error .emptyRandRange ∧
    ∀ row, tickStep 0 ⟨0, [], [1]⟩ 0 ≠ .ok row :=
  selection_empty_candidates_fails 0 ⟨0, [], [1]⟩ 0 rfl

/-- C7: if every record before `k` succeeds and record `k` fails, the run stops at `k` with
the error propagated to the caller: the written rows are exactly the rows the records
`0 .. k-1` produced, in order — one per successful record, so `k` rows in total and none for
record `k` or any later record — and no retry or skip happens (`k + 1` engine invocations
total, record `k` attempted once and nothing after it). -/
theorem runNetwork_aborts_on_tick_failure (ticks : Nat → Except PyError TickData)
    (draws : Nat → Nat) (rows : Nat → OutputRow) (n k : Nat) (e : PyError)
    (hk : k < n)
    (hfail : tickOutcome ticks draws k = .error e)
    (hok : ∀ j, j < k → tickOutcome ticks draws j = .ok (rows j)) :
    runNetwork ticks draws n = ⟨(List.range k).map rows, k + 1, some e⟩ ∧
    (runNetwork ticks draws n).rows.length = k := by
  have hmain : runNetwork ticks draws n = ⟨(List.range k).map rows, k + 1, some e⟩ := by
    have h := runLoop_first_error (tickOutcome ticks draws) rows e k 0 n hk
      (by rw [Nat.zero_add]; exact hfail)
      (fun j hj => by rw [Nat.zero_add]; exact hok j hj)
    have hfun : (fun j => rows (0 + j)) = rows :=
      funext (fun j => congrArg rows (Nat.zero_add j))
    unfold runNetwork
    rw [h, hfun]
  refine ⟨hmain, ?_⟩
  rw [hmain]
  simp

/-- C7 witness: the second record fails inside `network.run(1)`; only the row of the first
record is written and the error surfaces. -/
theorem runNetwork_aborts_on_tick_failure_witness :
    runNetwork failTicks (fun _ => 0) 3 = ⟨(List.range 1).map failRow, 2, some .maxOfEmpty⟩ ∧
    (runNetwork failTicks (fun _ => 0) 3).rows.length = 1 :=
  runNetwork_aborts_on_tick_failure failTicks (fun _ => 0) failRow 3 1 .maxOfEmpty
    (by omega) rfl
    (fun j hj => by
      have hj0 : j = 0 := Nat.lt_one_iff.mp hj
      subst hj0
      simp [tickOutcome, failTicks, tickStep, selectCandidates, pyMax, compWith,
        pickPrediction, failRow, List.getD_cons_zero, max_self,
        codeTest_eq_true (show (0.9 : ℚ) - 0.9 < epsilon by norm_num [epsilon])])

/-- C8: a record count of zero writes no row, performs no `network.run(1)` invocation (hence
no region step), and raises nothing. -/
theorem runNetwork_zero_records (ticks : Nat → Except PyError TickData)
    (draws : Nat → Nat) : runNetwork ticks draws 0 = ⟨[], 0, none⟩ := rfl

/-- C9: under the code comparison every index passes the filter, so the computed candidate
list always equals the whole `actualValues` list; in particular it is non-empty whenever the
inputs are, the `randint` index is in range, and the selection returns a value — an element
of `actualValues` — for every possible draw. -/
theorem code_filter_keeps_all_candidates (a p : List ℚ)
    (hlen : a.length = p.length) (hne : p ≠ []) :
    selectCandidates a p = .ok a ∧
    ∀ draw : Nat, ∃ v, pickPrediction a draw = .ok v ∧ v ∈ a := by
  cases p with
  | nil => exact absurd rfl hne
  | cons q qs =>
    have hmax := foldl_max_bounds qs q
    have hall : ∀ x ∈ q :: qs, codeTest x (qs.foldl max q) = true := by
      intro x hx
      have hle : x ≤ qs.foldl max q := by
        rcases List.mem_cons.mp hx with h | h
        · rw [h]; exact hmax.1
        · exact hmax.2 x h
      exact codeTest_eq_true (by
        have h0 : (0 : ℚ) < epsilon := by norm_num [epsilon]
        linarith)
    have hsel : selectCandidates a (q :: qs) = .ok a := by
      have hc := compWith_all_ok codeTest a (q :: qs) (qs.foldl max q) (le_of_eq hlen) hall
      simpa [selectCandidates, pyMax] using hc
    refine ⟨hsel, fun draw => ?_⟩
    cases a with
    | nil => simp at hlen
    | cons c cs =>
      refine ⟨(c :: cs).getD (draw % (c :: cs).length) c, rfl, ?_⟩
      exact getD_mem _ _ _ (Nat.mod_lt draw (show (c :: cs).length > 0 by simp))

/-- C9 witness at `actualValues = [10, 20]`, `probabilities = [0.5, 0.9]`, draw `3`. -/
theorem code_filter_keeps_all_candidates_witness :
    selectCandidates [10, 20] [0.5, 0.9] = .ok [10, 20] ∧
    (∃ v, pickPrediction [10, 20] 3 = .ok v ∧ v ∈ [10, 20]) := by
  have h := code_filter_keeps_all_candidates [10, 20] [0.5, 0.9] rfl (by simp)
  exact ⟨h.1, h.2 3⟩

/-- C10: `createNetwork` overwrites `SP_PARAMS["inputWidth"]` — initially `0` — with the
sensor encoder width, and changes nothing else: every other `SP_PARAMS` key and all of
`TP_PARAMS` and `CL_PARAMS` are untouched. -/
theorem createNetwork_mutates_only_inputWidth (w : Nat) (s : ModuleParams) :
    SP_PARAMS.inputWidth = 0 ∧
    (createNetwork w s).sp.inputWidth = w ∧
    (createNetwork w s).sp.spVerbosity = s.sp.spVerbosity ∧
    (createNetwork w s).sp.spatialImp = s.sp.spatialImp ∧
    (createNetwork w s).sp.globalInhibition = s.sp.globalInhibition ∧
    (createNetwork w s).sp.columnCount = s.sp.columnCount ∧
    (createNetwork w s).sp.numActiveColumnsPerInhArea = s.sp.numActiveColumnsPerInhArea ∧
    (createNetwork w s).sp.seed = s.sp.seed ∧
    (createNetwork w s).sp.potentialPct = s.sp.potentialPct ∧
    (createNetwork w s).sp.synPermConnected = s.sp.synPermConnected ∧
    (createNetwork w s).sp.synPermActiveInc = s.sp.synPermActiveInc ∧
    (createNetwork w s).sp.synPermInactiveDec = s.sp.synPermInactiveDec ∧
    (createNetwork w s).sp.maxBoost = s.sp.maxBoost ∧
    (createNetwork w s).tp = s.tp ∧
    (createNetwork w s).cl = s.cl :=
  ⟨rfl, rfl, rfl, rfl, rfl, rfl, rfl, rfl, rfl, rfl, rfl, rfl, rfl, rfl, rfl⟩

end HotgymDemo
